import Mathlib

/-!
Verification of the pftp FTP reverse-proxy core (the `proxyServer` type and
its methods: `commandLineCheck`, `sendToOrigin`, `sendTLSCommand`,
`switchOrigin`, the reply pump inside `start`, and the helper `getCode`).
Go strings are byte sequences; all inputs of interest here are ASCII, so a Go
string is embedded as a `List Char` (`GoStr`).  Network effects are embedded
explicitly: the stream of reply lines read from the origin is a `List GoStr`
consumed in order (an empty stream models a read error from `ReadString`),
writes are modelled as returning the exact bytes written, and the socket-level
side effects of `switchOrigin` are recorded in an event trace.
Definitions come first, then the theorems about them.
-/

/-- Embedding of a Go (byte) string as a list of characters. -/
abbrev GoStr := List Char

/-- The two-byte CRLF terminator `"\r\n"`. -/
def CRLF : GoStr := ('\r') :: ('\n') :: []

/-- The byte predicate used by `commandLineCheck`:
`(b >= 'a' && b <= 'z') || (b >= 'A' && b <= 'Z')`. -/
def isAlphaByte (c : Char) : Bool :=
  (('a' ≤ c && c ≤ 'z') || ('A' ≤ c && c ≤ 'Z'))

/-- `true` iff the character is CR or LF (the cutset `"\r\n"` of `strings.Trim`). -/
def isCRorLF (c : Char) : Bool := (c = '\r' || c = '\n')

/-- Embedding of `strings.Trim(s, "\r\n")`: remove leading and trailing CR/LF bytes. -/
def goTrim (s : GoStr) : GoStr :=
  ((s.dropWhile isCRorLF).reverse.dropWhile isCRorLF).reverse

/-- Split a list at the first occurrence of the character `sep`:
`some (before, after)` when `sep` occurs, `none` otherwise. -/
def splitFirst (sep : Char) : GoStr → Option (GoStr × GoStr)
  | [] => none
  | c :: cs =>
    if c = sep then some ([], cs)
    else (splitFirst sep cs).map (fun p => (c :: p.1, p.2))

/-- Embedding of `strings.SplitN(s, string(sep), 2)` for a one-byte separator:
`[before, after]` around the first occurrence of `sep`, or `[s]` when absent. -/
def splitN2 (sep : Char) (s : GoStr) : List GoStr :=
  match splitFirst sep s with
  | none => [s]
  | some p => [p.1, p.2]

/-- Embedding of `strings.Contains(s, pat)`: `pat` occurs as a contiguous
substring of `s` (the empty pattern always matches). -/
def containsSub : GoStr → GoStr → Bool
  | [], pat => pat.isEmpty
  | c :: rest, pat => pat.isPrefixOf (c :: rest) || containsSub rest pat

/-- The literal `"500 PROXY"` matched by the proxy-protocol ignore rule. -/
def proxy500 : GoStr := ("500 PROXY").toList

/-- Embedding of pftp's `getCode`:
`strings.SplitN(strings.Trim(line, "\r\n"), string(line[3]), 2)` when
`len(line) >= 4`, else `[line]`.  (`line.get? 3 = some c` iff `4 ≤ line.length`.) -/
def getCode (line : GoStr) : List GoStr :=
  match line.get? 3 with
  | some c => splitN2 c (goTrim line)
  | none => [line]

/-- Modelled from the spec: `getCommand` is defined outside the files under
verification (only its call sites appear in them); per the spec, command
parsing splits the line on ASCII whitespace with `verb = first token`
(callers upper-case the verb themselves).  We split the CRLF-trimmed line
at the first space. -/
def getCommand (line : GoStr) : List GoStr := splitN2 ' ' (goTrim line)

/-- Embedding of `strings.ToUpper` on ASCII data. -/
def goToUpper (s : GoStr) : GoStr := s.map Char.toUpper

/-- The loop at the head of `commandLineCheck`: drop leading bytes until the
first alphabetic one; `none` when the line runs out (the `aborted` error). -/
def dropNonAlpha : GoStr → Option GoStr
  | [] => none
  | c :: cs => if isAlphaByte c then some (c :: cs) else dropNonAlpha cs

/-- Embedding of `proxyServer.commandLineCheck`.  After stripping leading
non-alphabetic bytes (failing with `aborted : wrong command line` when nothing
is left), the line is returned unchanged when it ends in CRLF and contains
exactly one CR and one LF; otherwise all CR and LF bytes are removed (first
LF, then CR, as in the source) and a trailing CRLF is appended. -/
def commandLineCheck (line : GoStr) : Except GoStr GoStr :=
  match dropNonAlpha line with
  | none => Except.error (("aborted : wrong command line").toList)
  | some l =>
    if ¬(CRLF.isSuffixOf l = true) ∨ l.count '\r' ≠ 1 ∨ l.count '\n' ≠ 1 then
      Except.ok (((l.filter (fun c => ¬(c = '\n'))).filter (fun c => ¬(c = '\r'))) ++ CRLF)
    else
      Except.ok l

/-- Embedding of `proxyServer.sendToOrigin`: the line is first passed through
`commandLineCheck`; on success the checked line is written to the origin
(writes and flushes are modelled as succeeding, and the value returned is the
exact byte sequence written). -/
def sendToOrigin (line : GoStr) : Except GoStr GoStr := commandLineCheck line

/-- The configuration fields of `config` consulted by the code under
verification. -/
structure Config where
  proxyProtocol : Bool
  dataChanProxy : Bool
  masqueradeIP : GoStr
  deriving Repr, DecidableEq

/-- The `tls.Config` fields set by `sendTLSCommand` when wrapping the origin
socket. -/
structure TLSConfigRec where
  insecureSkipVerify : Bool
  minVersion : Nat
  maxVersion : Nat
  deriving Repr, DecidableEq

/-- The per-connection state consulted by one iteration of the reply pump's
reader goroutine: the `passThrough`, `isSwitched` and `stop` flags, the stored
welcome message, the configuration, and (for the data-channel branch) the
recorded client data-command mode and the proxy data-listener port. -/
structure PumpState where
  passThrough : Bool
  isSwitched : Bool
  stop : Bool
  welcomeMsg : GoStr
  cfg : Config
  mode : GoStr
  listenPort : Nat
  deriving Repr, DecidableEq

/-- `newProxyServer` stores `"220 " + conf.config.WelcomeMsg + "\r\n"` as the
welcome message. -/
def mkWelcomeMsg (w : GoStr) : GoStr := ("220 ").toList ++ w ++ CRLF

/-- The PASV reply synthesized for the client:
`fmt.Sprintf("227 Entering Passive Mode (%s,%s,%s).\r\n",
strings.ReplaceAll(masqueradeIP, ".", ","), itoa(port/256), itoa(port%256))`. -/
def pasvLine (masq : GoStr) (port : Nat) : GoStr :=
  ("227 Entering Passive Mode (").toList
    ++ masq.map (fun c => if c = '.' then ',' else c)
    ++ (",").toList ++ (toString (port / 256)).toList
    ++ (",").toList ++ (toString (port % 256)).toList
    ++ (").\r\n").toList

/-- The EPSV reply synthesized for the client:
`fmt.Sprintf("229 Entering Extended Passive Mode (|||%s|).\r\n", listenPort)`. -/
def epsvLine (port : Nat) : GoStr :=
  ("229 Entering Extended Passive Mode (|||").toList
    ++ (toString port).toList ++ ("|).\r\n").toList

/-- The PORT/EPRT acknowledgement synthesized for the client:
`fmt.Sprintf("200 %s command successful\r\n", mode)`. -/
def portModeLine (mode : GoStr) : GoStr :=
  ("200 ").toList ++ mode ++ (" command successful\r\n").toList

/-- `isDataCommandResponse` after the three prefix tests in the data-channel
branch of the reply pump: the line starts with `"227 "`, `"229 "` or
`"200 PORT command successful"`. -/
def isDataCmdResp (buff : GoStr) : Bool :=
  (("227 ").toList).isPrefixOf buff || (("229 ").toList).isPrefixOf buff
    || (("200 PORT command successful").toList).isPrefixOf buff

/-- The data-channel branch of the reply pump (`if s.config.DataChanProxy &&
s.isSwitched { ... }`): when the reply is a data-command response, the
outgoing line is replaced according to the recorded client mode (the
asynchronous `StartDataTransfer` kick-off and the `parsePASVresponse` /
`parseEPSVresponse` bookkeeping touch only the data handler and are not part
of the forwarded bytes). -/
def dataRewrite (st : PumpState) (buff : GoStr) : GoStr :=
  if st.cfg.dataChanProxy = true ∧ st.isSwitched = true ∧ isDataCmdResp buff = true then
    if st.mode = ("PORT").toList ∨ st.mode = ("EPRT").toList then portModeLine st.mode
    else if st.mode = ("PASV").toList then pasvLine st.cfg.masqueradeIP st.listenPort
    else if st.mode = ("EPSV").toList then epsvLine st.listenPort
    else buff
  else buff

/-- The multi-line collection loop of the reply pump: starting from the opener
(already in `acc`), keep reading lines, appending each to the accumulator,
until a line whose `getCode` head equals the opener's code and whose fourth
byte is a space.  `none` models the `ReadString` error path (empty stream) and
the index-out-of-range panic `res[3]` (unreachable for LF-terminated reads,
since such a short line still ends in LF while a code never contains LF). -/
def collectMulti (code : GoStr) (acc : GoStr) : List GoStr → Option (GoStr × List GoStr)
  | [] => none
  | res :: rest =>
    if (getCode res).headD [] = code then
      match res.get? 3 with
      | some c =>
        if c = ' ' then some (acc ++ res, rest)
        else collectMulti code (acc ++ res) rest
      | none => none
    else collectMulti code (acc ++ res) rest

/-- One iteration of the reader goroutine inside `proxyServer.start`, acting on
the stream of origin reply lines.  Returns `none` on the `ReadString` error
path (empty stream, or a failed read inside a multi-line block); otherwise
`some (out?, rest)`, where `out?` is the buffer handed to the writer half (and
hence written to the client) — `none` when nothing is forwarded — and `rest`
is the unread remainder of the stream.  The stages follow the source order:
welcome-message substitution for code 220 on a not-yet-switched connection,
the `500 PROXY` drop under `proxy_protocol`, the data-channel rewrite, the
multi-line merge, and finally the `passThrough` gate. -/
def pumpStep (st : PumpState) : List GoStr → Option (Option GoStr × List GoStr)
  | [] => none
  | buff :: rest =>
    let b1 := if (getCode buff).headD [] = ("220").toList ∧ st.isSwitched = false
              then st.welcomeMsg else buff
    if st.cfg.proxyProtocol = true ∧ containsSub b1 proxy500 = true then
      some (none, rest)
    else
      let b2 := dataRewrite st b1
      if 4 ≤ b2.length ∧ b2.get? 3 = some '-' then
        match collectMulti ((getCode b2).headD []) b2 rest with
        | none => none
        | some p => some ((if st.passThrough then some p.1 else none), p.2)
      else
        some ((if st.passThrough then some b2 else none), rest)

/-- The guard at the entry of `proxyServer.start`:
`if s.stop || !s.passThrough { return nil }` — the pump only runs when this is
`true`. -/
def startRuns (st : PumpState) : Bool := !(st.stop || !st.passThrough)

/-- A suspended pump state used by the C2 witness. -/
def pumpStSuspended : PumpState :=
  ⟨false, true, false, mkWelcomeMsg (("pftp").toList), ⟨false, false, []⟩, [], 0⟩

/-- A pass-through pump state used by the C2 witness. -/
def pumpStOpen : PumpState :=
  ⟨true, true, false, mkWelcomeMsg (("pftp").toList), ⟨false, false, []⟩, [], 0⟩

/-- A line that does not terminate a multi-line block with opener code `code`:
if its `getCode` head equals the code, its fourth byte exists and is not a
space (so the loop keeps accumulating without panicking). -/
def isMultiCont (code r : GoStr) : Prop :=
  (getCode r).headD [] = code → ∃ c, r.get? 3 = some c ∧ ¬(c = ' ')

/-- The pump state of the C3 counterexample: pass-through, **not yet
switched**, no proxy protocol, no data-channel proxy. -/
def c3St : PumpState :=
  ⟨true, false, false, mkWelcomeMsg (("pftp").toList), ⟨false, false, []⟩, [], 0⟩

/-- The pump state of the C3 witness: pass-through and already switched. -/
def c3wSt : PumpState :=
  ⟨true, true, false, mkWelcomeMsg (("pftp").toList), ⟨false, false, []⟩, [], 0⟩

/-- The pump state of the C7 counterexample and witness: pass-through, not yet
switched, welcome message `"220 pftp\r\n"`. -/
def c7St : PumpState :=
  ⟨true, false, false, mkWelcomeMsg (("pftp").toList), ⟨false, false, []⟩, [], 0⟩

/-- The inner reply-reading loop of `sendTLSCommand` for one replayed command
(`isAuth` tells whether the command's upper-cased verb is `AUTH`).  The
stream of origin reply lines is consumed in order; an empty stream models the
`ReadString` error (`failed to make TLS connection`).  For an AUTH command, a
line whose code is not `234` is skipped when it contains `500 PROXY` and
`proxy_protocol` is on, and otherwise sets the
`origin server has not support TLS connection` error for this command; a
`234` line wraps the origin socket in TLS with `InsecureSkipVerify = true`
and `MinVersion = MaxVersion = tlsProto`.  For a non-AUTH command a single
line is consumed.  Returns the per-command error update, the (possibly
wrapped) origin TLS configuration, and the unread remainder. -/
def tlsReadLoop (cfg : Config) (tlsProto : Nat) (isAuth : Bool)
    (otls : Option TLSConfigRec) :
    List GoStr → Except GoStr (Option GoStr × Option TLSConfigRec × List GoStr)
  | [] => Except.error (("failed to make TLS connection").toList)
  | str :: rest =>
    if isAuth then
      if ¬((getCode str).headD [] = ("234").toList) then
        if cfg.proxyProtocol = true ∧ containsSub str proxy500 = true then
          tlsReadLoop cfg tlsProto isAuth otls rest
        else
          Except.ok (some ((getCode str).headD []
            ++ (" origin server has not support TLS connection").toList), otls, rest)
      else
        Except.ok (none, some ⟨true, tlsProto, tlsProto⟩, rest)
    else Except.ok (none, otls, rest)

/-- Embedding of `proxyServer.sendTLSCommand`: replay the recorded commands in
order (writes are modelled as succeeding), reading replies for each with
`tlsReadLoop`; `lastErr` carries the `lastError` variable of the source (set
by a failed AUTH, never cleared).  The result is the hard read error, or
`lastError` together with the final origin TLS configuration and the unread
remainder of the reply stream. -/
def sendTLSCommand (cfg : Config) (tlsProto : Nat) :
    List GoStr → Option GoStr → Option TLSConfigRec → List GoStr →
    Except GoStr (Option GoStr × Option TLSConfigRec × List GoStr)
  | [], lastErr, otls, lines => Except.ok (lastErr, otls, lines)
  | cmd :: cmds, lastErr, otls, lines =>
    match tlsReadLoop cfg tlsProto
        (goToUpper ((getCommand cmd).headD []) == ("AUTH").toList) otls lines with
    | Except.error e => Except.error e
    | Except.ok q =>
      sendTLSCommand cfg tlsProto cmds
        (match q.1 with | some e => some e | none => lastErr) q.2.1 q.2.2

/-- The `proxyServer` state touched by `switchOrigin`: the `isSwitched`,
`passThrough` and `stop` flags, whether an origin connection is currently
open, and the TLS wrapping of the origin socket. -/
structure PState where
  isSwitched : Bool
  passThrough : Bool
  stop : Bool
  originOpen : Bool
  originTLS : Option TLSConfigRec
  deriving Repr, DecidableEq

/-- The environment of one `switchOrigin` call: whether the dial of the new
origin succeeds, and the stream of reply lines the new origin will produce
(first the welcome line, then the replies consumed by the TLS replay). -/
structure SwitchEnv where
  dialOk : Bool
  originLines : List GoStr
  deriving Repr, DecidableEq

/-- Observable side effects of `switchOrigin`, in order: the
`stopChan`/`stopChanDone` rendezvous with the reply pump (which closes the old
origin), the dial of the new origin, the PROXY v1 header write, the read of
the welcome line, the TCP keepalive/linger tuning, and the final result sent
on `waitSwitching` by the deferred function. -/
inductive SwEvent where
  | stopExchanged
  | dialed
  | proxyHeaderSent
  | welcomeRead (line : GoStr)
  | tcpTuned
  | waitSwitchingSent (result : Bool)
  deriving Repr, DecidableEq

/-- Embedding of `proxyServer.switchOrigin`.  Guards: an empty origin address
fails with `user id not found`; an already-switched server fails with
`origin already switched`; both before any state change or signal.  Past the
guards `isSwitched` latches to true, the pump is quiesced (the pump's
`stopChan` handler sets `stop = true` and closes the old origin), the new
origin is dialed, the PROXY header sent when configured, exactly one welcome
line is read (only the read error is checked — its content is merely logged),
TCP tuning is applied, and the recorded TLS commands are replayed.  The
deferred epilogue resets `stop = false`, publishes the switch result on
`waitSwitching`, and unsuspends (restores `passThrough` to its entry value,
which the sequential model never changed). -/
def switchOrigin (cfg : Config) (st : PState) (env : SwitchEnv)
    (originAddr : GoStr) (tlsProto : Nat) (prevCmds : List GoStr) :
    Except GoStr Unit × PState × List SwEvent :=
  if originAddr = [] then (Except.error (("user id not found").toList), st, [])
  else if st.isSwitched = true then
    (Except.error (("origin already switched").toList), st, [])
  else
    let st1 : PState :=
      { st with isSwitched := true, stop := true, originOpen := false }
    if env.dialOk = false then
      (Except.error (("dial origin failed").toList),
        { st1 with stop := false },
        [SwEvent.stopExchanged, SwEvent.waitSwitchingSent false])
    else
      let st2 : PState := { st1 with originOpen := true, originTLS := none }
      let evs2 : List SwEvent :=
        [SwEvent.stopExchanged, SwEvent.dialed]
          ++ (if cfg.proxyProtocol then [SwEvent.proxyHeaderSent] else [])
      match env.originLines with
      | [] =>
        (Except.error (("cannot connect to new origin server").toList),
          { st2 with stop := false },
          evs2 ++ [SwEvent.waitSwitchingSent false])
      | res :: restLines =>
        let evs3 := evs2 ++ [SwEvent.welcomeRead res, SwEvent.tcpTuned]
        match sendTLSCommand cfg tlsProto prevCmds none st2.originTLS restLines with
        | Except.error e =>
          (Except.error e, { st2 with stop := false },
            evs3 ++ [SwEvent.waitSwitchingSent false])
        | Except.ok q =>
          match q.1 with
          | some e =>
            (Except.error e, { st2 with originTLS := q.2.1, stop := false },
              evs3 ++ [SwEvent.waitSwitchingSent false])
          | none =>
            (Except.ok (), { st2 with originTLS := q.2.1, stop := false },
              evs3 ++ [SwEvent.waitSwitchingSent true])

/-- The pump state of the C8 counterexample: pass-through, switched,
`proxy_protocol` enabled. -/
def c8St : PumpState :=
  ⟨true, true, false, mkWelcomeMsg (("pftp").toList), ⟨true, false, []⟩, [], 0⟩

/-- A pump state with `proxy_protocol` disabled, for the C8 witness. -/
def c8StOff : PumpState :=
  ⟨true, true, false, mkWelcomeMsg (("pftp").toList), ⟨false, false, []⟩, [], 0⟩

/-- The pump state of the C9 witness: data-channel proxy on, switched, client
mode PASV, masquerade IP `198.51.100.9`, data listener on port 49999. -/
def c9St : PumpState :=
  ⟨true, true, false, mkWelcomeMsg (("pftp").toList),
    ⟨false, true, ("198.51.100.9").toList⟩, ("PASV").toList, 49999⟩

/-- The already-switched state of the C4 counterexample and witness. -/
def c4St : PState := ⟨true, true, false, true, none⟩

/-- A benign environment for the C4 counterexample and witness. -/
def c4Env : SwitchEnv := ⟨true, []⟩

/-- A not-yet-switched state for the C6 counterexample and witness. -/
def c6St : PState := ⟨false, true, false, true, none⟩

theorem dropNonAlpha_eq_none (line : GoStr) (h : ∀ c ∈ line, isAlphaByte c = false) :
    dropNonAlpha line = none := by
  induction line with
  | nil => rfl
  | cons c cs ih =>
    have hc := h c (List.mem_cons_self c cs)
    show (if isAlphaByte c then some (c :: cs) else dropNonAlpha cs) = none
    rw [if_neg (by simp [hc])]
    exact ih (fun d hd => h d (List.mem_cons_of_mem c hd))

theorem dropNonAlpha_some (line l : GoStr) (h : dropNonAlpha line = some l) :
    ∃ junk, line = junk ++ l ∧ (∀ c ∈ junk, isAlphaByte c = false) ∧
      ∃ d ds, l = d :: ds ∧ isAlphaByte d = true := by
  induction line with
  | nil => simp [dropNonAlpha] at h
  | cons c cs ih =>
    by_cases hc : isAlphaByte c = true
    · refine ⟨[], ?_, by simp, c, cs, ?_, hc⟩ <;>
        simp only [dropNonAlpha, hc, if_pos] at h <;> simp [← Option.some_inj.mp h]
    · simp only [dropNonAlpha, hc, if_neg, Bool.not_eq_true] at h
      obtain ⟨junk, hline, hjunk, hd⟩ := ih h
      exact ⟨c :: junk, by simp [hline], by
        intro x hx
        rcases List.mem_cons.mp hx with hx | hx
        · subst hx; simpa using hc
        · exact hjunk x hx, hd⟩

theorem dropNonAlpha_exists (line : GoStr) (h : ∃ c ∈ line, isAlphaByte c = true) :
    ∃ l, dropNonAlpha line = some l := by
  induction line with
  | nil => simp at h
  | cons c cs ih =>
    by_cases hc : isAlphaByte c = true
    · exact ⟨c :: cs, by simp [dropNonAlpha, hc]⟩
    · obtain ⟨d, hd, hda⟩ := h
      rcases List.mem_cons.mp hd with rfl | hd
      · exact absurd hda hc
      · obtain ⟨l, hl⟩ := ih ⟨d, hd, hda⟩
        exact ⟨l, by simpa [dropNonAlpha, hc] using hl⟩

theorem count_filter_ne_zero (l : GoStr) (c : Char) :
    (l.filter (fun x => ¬(x = c))).count c = 0 := by
  rw [List.count_eq_zero]
  intro hmem
  simp [List.mem_filter] at hmem

/-- C1.  A command line passed to `sendToOrigin` with no ASCII alphabetic byte
fails with the bad-command-line error (nothing is written); any line with an
alphabetic byte succeeds, and the line written to origin is the input with all
leading non-alphabetic bytes stripped and then normalized: it starts with an
alphabetic byte, contains exactly one CR and exactly one LF, and ends with the
two bytes CR LF. -/
theorem sendToOrigin_normalized (line : GoStr) :
    ((∀ c ∈ line, isAlphaByte c = false) →
      sendToOrigin line = Except.error (("aborted : wrong command line").toList))
    ∧ ((∃ c ∈ line, isAlphaByte c = true) → ∃ out, sendToOrigin line = Except.ok out)
    ∧ (∀ out, sendToOrigin line = Except.ok out →
        ((∃ d ds, out = d :: ds ∧ isAlphaByte d = true)
         ∧ out.count '\r' = 1 ∧ out.count '\n' = 1
         ∧ CRLF.isSuffixOf out = true
         ∧ (∃ junk core, line = junk ++ core ∧ (∀ c ∈ junk, isAlphaByte c = false)
              ∧ dropNonAlpha line = some core
              ∧ (out = core ∨
                 out = ((core.filter (fun c => ¬(c = '\n'))).filter
                          (fun c => ¬(c = '\r'))) ++ CRLF)))) := by
  refine ⟨?_, ?_, ?_⟩
  · intro h
    simp [sendToOrigin, commandLineCheck, dropNonAlpha_eq_none line h]
  · intro h
    obtain ⟨l, hl⟩ := dropNonAlpha_exists line h
    simp only [sendToOrigin, commandLineCheck, hl]
    split <;> exact ⟨_, rfl⟩
  · intro out hout
    cases hdrop : dropNonAlpha line with
    | none => simp [sendToOrigin, commandLineCheck, hdrop] at hout
    | some l =>
      obtain ⟨junk, hline, hjunk, d, ds, hl, hd⟩ := dropNonAlpha_some line l hdrop
      subst hl
      have hdn : ¬(d = '\n') := by
        intro hh; rw [hh] at hd; exact absurd hd (by decide)
      have hdr : ¬(d = '\r') := by
        intro hh; rw [hh] at hd; exact absurd hd (by decide)
      simp only [sendToOrigin, commandLineCheck, hdrop] at hout
      split at hout
      case isTrue hcond =>
        rw [Except.ok.injEq] at hout
        subst hout
        constructor
        · rw [List.filter_cons_of_pos (by simp [hdn]), List.filter_cons_of_pos (by simp [hdr])]
          exact ⟨d, _, rfl, hd⟩
        refine ⟨?_, ?_, ?_, junk, d :: ds, hline, hjunk, rfl, Or.inr rfl⟩
        · rw [List.count_append, count_filter_ne_zero]
          decide
        · rw [List.count_append, List.count_eq_zero.mpr, Nat.zero_add]
          · decide
          · intro hmem
            rw [List.mem_filter] at hmem
            have := List.mem_filter.mp hmem.1
            simp at this
        · exact List.isSuffixOf_iff_suffix.mpr ⟨_, rfl⟩
      case isFalse hcond =>
        push_neg at hcond
        rw [Except.ok.injEq] at hout
        subst hout
        exact ⟨⟨d, ds, rfl, hd⟩, hcond.2.1, hcond.2.2, hcond.1, junk, d :: ds, hline, hjunk,
          rfl, Or.inl rfl⟩

/-- Witness for C1 at concrete inputs: `"123\r\n"` has no alphabetic byte and is
rejected; `"-USER bob\r\r\n"` is accepted and the bytes written are
`"USER bob\r\n"`, which satisfy all normalization conjuncts. -/
theorem sendToOrigin_normalized_witness :
    sendToOrigin (("123\r\n").toList) = Except.error (("aborted : wrong command line").toList)
    ∧ (∃ out, sendToOrigin (("-USER bob\r\r\n").toList) = Except.ok out)
    ∧ ((("USER bob\r\n").toList).count '\r' = 1
       ∧ CRLF.isSuffixOf (("USER bob\r\n").toList) = true) :=
  ⟨(sendToOrigin_normalized (("123\r\n").toList)).1 (by decide),
   (sendToOrigin_normalized (("-USER bob\r\r\n").toList)).2.1 ⟨'U', by decide, by decide⟩,
   ((sendToOrigin_normalized (("-USER bob\r\r\n").toList)).2.2
      (("USER bob\r\n").toList) rfl).2.1,
   ((sendToOrigin_normalized (("-USER bob\r\r\n").toList)).2.2
      (("USER bob\r\n").toList) rfl).2.2.2.1⟩

theorem pumpStep_out_shape (st : PumpState) (lines : List GoStr) (o : Option GoStr)
    (rest : List GoStr) (h : pumpStep st lines = some (o, rest)) :
    o = none ∨ (st.passThrough = true ∧ ∃ b, o = some b) := by
  cases lines with
  | nil => simp [pumpStep] at h
  | cons buff rst =>
    simp only [pumpStep] at h
    split at h
    all_goals split at h
    all_goals try split at h
    all_goals try split at h
    all_goals try split at h
    all_goals
      first
        | exact Option.noConfusion h
        | (obtain ⟨ho, -⟩ := (Prod.mk.injEq _ _ _ _).mp (Option.some.inj h)
           first
             | exact Or.inl ho.symm
             | (refine Or.inr ⟨?_, _, ho.symm⟩; assumption))

/-- C2.  The `pass_through` flag gates the reply pump: when it is false, an
iteration of the reader consumes the reply line (and any multi-line
continuation) but hands nothing to the writer half, so no bytes reach the
client; a buffer is handed over (output `some b`) only when `pass_through` is
true.  Moreover `start` itself refuses to run while `pass_through` is false. -/
theorem passThrough_gates_pump (st : PumpState) (lines : List GoStr) :
    (st.passThrough = false →
      ∀ o rest, pumpStep st lines = some (o, rest) → o = none)
    ∧ (∀ b rest, pumpStep st lines = some (some b, rest) → st.passThrough = true)
    ∧ (st.passThrough = false → startRuns st = false) := by
  refine ⟨?_, ?_, ?_⟩
  · intro hpt o rest h
    rcases pumpStep_out_shape st lines o rest h with hn | ⟨hp, _⟩
    · exact hn
    · rw [hpt] at hp; exact absurd hp (by simp)
  · intro b rest h
    rcases pumpStep_out_shape st lines (some b) rest h with hn | ⟨hp, _⟩
    · exact absurd hn (by simp)
    · exact hp
  · intro hpt
    simp [startRuns, hpt]

/-- Witness for C2 at concrete inputs: with `pass_through = false` the line
`"230 OK\r\n"` is consumed with no output and `start` would not run; with
`pass_through = true` the same line is handed to the writer. -/
theorem passThrough_gates_pump_witness :
    pumpStep pumpStSuspended [("230 OK\r\n").toList] = some (none, [])
    ∧ (none : Option GoStr) = none
    ∧ pumpStSuspended.passThrough = false
    ∧ startRuns pumpStSuspended = false
    ∧ pumpStep pumpStOpen [("230 OK\r\n").toList] = some (some (("230 OK\r\n").toList), [])
    ∧ pumpStOpen.passThrough = true :=
  ⟨rfl,
   (passThrough_gates_pump pumpStSuspended [("230 OK\r\n").toList]).1 rfl none [] rfl,
   rfl,
   (passThrough_gates_pump pumpStSuspended [("230 OK\r\n").toList]).2.2 rfl,
   rfl,
   (passThrough_gates_pump pumpStOpen [("230 OK\r\n").toList]).2.1
     (("230 OK\r\n").toList) [] rfl⟩

theorem collectMulti_spec (code t : GoStr) (pre post : List GoStr) (acc : GoStr)
    (hpre : ∀ r ∈ pre, isMultiCont code r)
    (htc : (getCode t).headD [] = code) (ht3 : t.get? 3 = some ' ') :
    collectMulti code acc (pre ++ t :: post) = some (acc ++ pre.flatten ++ t, post) := by
  induction pre generalizing acc with
  | nil =>
    show (if (getCode t).headD [] = code then _ else _) = _
    rw [if_pos htc, ht3]
    simp
  | cons r rs ih =>
    have hr := hpre r (List.mem_cons_self r rs)
    show (if (getCode r).headD [] = code then _ else _) = _
    by_cases hcode : (getCode r).headD [] = code
    · obtain ⟨c, hc3, hcne⟩ := hr hcode
      rw [if_pos hcode, hc3]
      show (if c = ' ' then _ else _) = _
      rw [if_neg hcne]
      show collectMulti code (acc ++ r) (rs ++ t :: post) = _
      rw [ih (acc ++ r) (fun x hx => hpre x (List.mem_cons_of_mem r hx))]
      simp
    · rw [if_neg hcode]
      show collectMulti code (acc ++ r) (rs ++ t :: post) = _
      rw [ih (acc ++ r) (fun x hx => hpre x (List.mem_cons_of_mem r hx))]
      simp

theorem isDataCmdResp_of_dash (buff : GoStr) (h : buff.get? 3 = some '-') :
    isDataCmdResp buff = false := by
  unfold isDataCmdResp
  rw [Bool.or_eq_false_iff, Bool.or_eq_false_iff]
  refine ⟨⟨?_, ?_⟩, ?_⟩
  · rw [← Bool.not_eq_true, List.isPrefixOf_iff_prefix]
    rintro ⟨tail, rfl⟩
    have h4 : ((("227 ").toList) ++ tail).get? 3 = some ' ' := rfl
    rw [h4] at h
    simp at h
  · rw [← Bool.not_eq_true, List.isPrefixOf_iff_prefix]
    rintro ⟨tail, rfl⟩
    have h4 : ((("229 ").toList) ++ tail).get? 3 = some ' ' := rfl
    rw [h4] at h
    simp at h
  · rw [← Bool.not_eq_true, List.isPrefixOf_iff_prefix]
    rintro ⟨tail, rfl⟩
    have h4 : ((("200 PORT command successful").toList) ++ tail).get? 3 = some ' ' := rfl
    rw [h4] at h
    simp at h

theorem dataRewrite_of_not_resp (st : PumpState) (buff : GoStr)
    (h : isDataCmdResp buff = false) : dataRewrite st buff = buff := by
  unfold dataRewrite
  rw [if_neg]
  simp [h]

/-- C3 (amended).  A reply line that reaches the multi-line check — i.e. one
that is not replaced by the welcome message (code 220 while not switched) and
not dropped by the `500 PROXY` rule — of length ≥ 4 and with `'-'` as fourth
byte opens a multi-line block: the pump keeps reading lines, concatenating
them in order, until the first line whose `getCode` head equals the opener's
and whose fourth byte is a space, and hands the whole block to the writer as
one buffer (when `pass_through` is true). -/
theorem multiline_merge (st : PumpState) (buff t : GoStr) (pre post : List GoStr)
    (hpt : st.passThrough = true)
    (hlen : 4 ≤ buff.length)
    (hdash : buff.get? 3 = some '-')
    (hno220 : ¬((getCode buff).headD [] = ("220").toList ∧ st.isSwitched = false))
    (hno500 : ¬(st.cfg.proxyProtocol = true ∧ containsSub buff proxy500 = true))
    (hpre : ∀ r ∈ pre, isMultiCont ((getCode buff).headD []) r)
    (htc : (getCode t).headD [] = (getCode buff).headD [])
    (ht3 : t.get? 3 = some ' ') :
    pumpStep st (buff :: (pre ++ t :: post))
      = some (some (buff ++ pre.flatten ++ t), post) := by
  have hdr : dataRewrite st buff = buff :=
    dataRewrite_of_not_resp st buff (isDataCmdResp_of_dash buff hdash)
  simp only [pumpStep]
  rw [if_neg hno220, if_neg hno500, hdr, if_pos ⟨hlen, hdash⟩,
    collectMulti_spec ((getCode buff).headD []) t pre post buff hpre htc ht3]
  show some (if st.passThrough = true then _ else _, post) = _
  rw [if_pos hpt]

/-- Counterexample to C3 as stated: on a not-yet-switched connection the
origin reply `"220-Hello\r\n"` has length ≥ 4 and `'-'` as fourth byte, yet it
does **not** open a multi-line block — the welcome-message substitution runs
first, the pump forwards the single-line configured welcome, and the
terminating line `"220 Done\r\n"` is left unread in the stream instead of
being concatenated into one delivered buffer. -/
theorem multiline_claim_cex :
    (("220-Hello\r\n").toList).get? 3 = some '-'
    ∧ 4 ≤ (("220-Hello\r\n").toList).length
    ∧ pumpStep c3St [("220-Hello\r\n").toList, ("220 Done\r\n").toList]
        = some (some (mkWelcomeMsg (("pftp").toList)), [("220 Done\r\n").toList])
    ∧ ¬(mkWelcomeMsg (("pftp").toList) = ("220-Hello\r\n220 Done\r\n").toList) :=
  ⟨rfl, by decide, rfl, by decide⟩

/-- Witness for C3 (amended) at a concrete input: the block opened by
`"230-Start\r\n"`, continued by `"More\r\n"` and closed by `"230 Done\r\n"`
is delivered as a single concatenated buffer. -/
theorem multiline_merge_witness :
    pumpStep c3wSt (("230-Start\r\n").toList
        :: ([("More\r\n").toList] ++ ("230 Done\r\n").toList :: []))
      = some (some (("230-Start\r\n").toList
          ++ [("More\r\n").toList].flatten ++ ("230 Done\r\n").toList), []) :=
  multiline_merge c3wSt (("230-Start\r\n").toList) (("230 Done\r\n").toList)
    [("More\r\n").toList] [] rfl (by decide) rfl (by decide) (by decide)
    (by
      intro r hr hcode
      rcases List.mem_singleton.mp hr with rfl
      exact absurd hcode (by decide))
    (by decide) rfl

theorem mkWelcomeMsg_get3 (w : GoStr) : (mkWelcomeMsg w).get? 3 = some ' ' := rfl

theorem dataRewrite_of_not_switched (st : PumpState) (b : GoStr)
    (h : st.isSwitched = false) : dataRewrite st b = b := by
  unfold dataRewrite
  rw [if_neg]
  rintro ⟨-, hs, -⟩
  rw [h] at hs
  exact Bool.noConfusion hs

/-- C7 (amended).  On a not-yet-switched connection, every reply line whose
`getCode` head is `"220"` — i.e. whose reply code, the text before the first
occurrence of the line's fourth byte in the CRLF-trimmed line, equals `220`
(true of any well-formed `"220 ..."` or `"220-..."` reply, and in particular
of the first welcome reply) — is replaced by the configured welcome message
`"220 <welcome_msg>\r\n"`, which is what the pump forwards to the client
instead of the origin's own line (provided the welcome message itself does
not trip the `500 PROXY` drop). -/
theorem welcome_replaced (st : PumpState) (buff : GoStr) (rest : List GoStr) (w : GoStr)
    (hw : st.welcomeMsg = mkWelcomeMsg w)
    (hsw : st.isSwitched = false)
    (hpt : st.passThrough = true)
    (hcode : (getCode buff).headD [] = ("220").toList)
    (hno500 : ¬(st.cfg.proxyProtocol = true ∧ containsSub st.welcomeMsg proxy500 = true)) :
    pumpStep st (buff :: rest) = some (some (mkWelcomeMsg w), rest) := by
  rw [hw] at hno500
  simp only [pumpStep]
  have hconj : (getCode buff).headD [] = ("220").toList ∧ st.isSwitched = false :=
    ⟨hcode, hsw⟩
  rw [if_pos hconj, hw, if_neg hno500, dataRewrite_of_not_switched st _ hsw]
  rw [if_neg (by
    rintro ⟨-, h3⟩
    rw [mkWelcomeMsg_get3 w] at h3
    simp at h3)]
  rw [if_pos hpt]

/-- Counterexample to C7 as stated: the first reply `"2202 Weird\r\n"` on a
not-yet-switched connection begins with `220`, yet the pump forwards it
unchanged — the code's test is `getCode(buff)[0] == "220"`, which splits the
trimmed line at its fourth byte `'2'` and yields `""`, not a
starts-with-`220` test. -/
theorem welcome_claim_cex :
    (("220").toList).isPrefixOf (("2202 Weird\r\n").toList) = true
    ∧ c7St.isSwitched = false
    ∧ pumpStep c7St [("2202 Weird\r\n").toList]
        = some (some (("2202 Weird\r\n").toList), [])
    ∧ ¬((("2202 Weird\r\n").toList) = c7St.welcomeMsg) :=
  ⟨rfl, rfl, rfl, by decide⟩

/-- Witness for C7 (amended) at a concrete input: the origin banner
`"220 Original banner\r\n"` is replaced by `"220 pftp\r\n"`. -/
theorem welcome_replaced_witness :
    pumpStep c7St [("220 Original banner\r\n").toList]
      = some (some (mkWelcomeMsg (("pftp").toList)), []) :=
  welcome_replaced c7St (("220 Original banner\r\n").toList) [] (("pftp").toList)
    rfl rfl rfl (by decide) (by decide)

/-- C8 (amended).  When `proxy_protocol` is on, a reply line containing
`"500 PROXY"` that is read at the top of the reply-pump loop — and that is not
first replaced by the welcome message (code 220, not switched) — is dropped
silently: nothing is forwarded and the pump continues with the next line.  The
same skip applies in `sendTLSCommand` to a non-234 line read while awaiting an
AUTH reply.  Continuation lines inside a multi-line block are *not* subject to
the drop (see the counterexample), and when `proxy_protocol` is off such a
line is forwarded normally. -/
theorem proxy500_drop (st : PumpState) (buff : GoStr) (rest : List GoStr)
    (cfg : Config) (tp : Nat) (otls : Option TLSConfigRec) (str : GoStr) (c : Char) :
    (st.cfg.proxyProtocol = true → containsSub buff proxy500 = true →
      ¬((getCode buff).headD [] = ("220").toList ∧ st.isSwitched = false) →
      pumpStep st (buff :: rest) = some (none, rest))
    ∧ (cfg.proxyProtocol = true → containsSub str proxy500 = true →
      ¬((getCode str).headD [] = ("234").toList) →
      tlsReadLoop cfg tp true otls (str :: rest) = tlsReadLoop cfg tp true otls rest)
    ∧ (st.cfg.proxyProtocol = false → st.passThrough = true → st.isSwitched = true →
      st.cfg.dataChanProxy = false → containsSub buff proxy500 = true →
      buff.get? 3 = some c → ¬(c = '-') →
      pumpStep st (buff :: rest) = some (some buff, rest)) := by
  refine ⟨?_, ?_, ?_⟩
  · intro hpp hcont hno220
    simp only [pumpStep]
    have hdrop : st.cfg.proxyProtocol = true
        ∧ containsSub (if (getCode buff).headD [] = ("220").toList
            ∧ st.isSwitched = false then st.welcomeMsg else buff) proxy500 = true := by
      rw [if_neg hno220]
      exact ⟨hpp, hcont⟩
    rw [if_pos hdrop]
  · intro hpp hcont hne
    show (if (true : Bool) = true then _ else _) = _
    rw [if_pos rfl, if_pos hne, if_pos ⟨hpp, hcont⟩]
  · intro hpp hpt hsw hdc hcont h3 hne
    simp only [pumpStep]
    have hno220 : ¬((getCode buff).headD [] = ("220").toList
        ∧ st.isSwitched = false) := by
      rintro ⟨-, hf⟩
      rw [hsw] at hf
      exact Bool.noConfusion hf
    rw [if_neg hno220,
      if_neg (by rintro ⟨hp, -⟩; rw [hpp] at hp; exact Bool.noConfusion hp)]
    have hdr : dataRewrite st buff = buff := by
      unfold dataRewrite
      rw [if_neg]
      rintro ⟨hd, -⟩
      rw [hdc] at hd
      exact Bool.noConfusion hd
    rw [hdr,
      if_neg (by
        rintro ⟨-, hd3⟩
        rw [h3] at hd3
        exact hne (Option.some.inj hd3)),
      if_pos hpt]

/-- Counterexample to C8 as stated: with `proxy_protocol` on, the multi-line
continuation line `"500 PROXY not understood\r\n"` contains `500 PROXY` but is
**not** dropped — it is concatenated into the block and the whole buffer,
`500 PROXY` included, is forwarded to the client. -/
theorem proxy500_claim_cex :
    c8St.cfg.proxyProtocol = true
    ∧ containsSub (("500 PROXY not understood\r\n").toList) proxy500 = true
    ∧ pumpStep c8St [("230-Start\r\n").toList,
        ("500 PROXY not understood\r\n").toList, ("230 Done\r\n").toList]
      = some (some (("230-Start\r\n500 PROXY not understood\r\n230 Done\r\n").toList), [])
    ∧ containsSub (("230-Start\r\n500 PROXY not understood\r\n230 Done\r\n").toList)
        proxy500 = true :=
  ⟨rfl, by decide, rfl, by decide⟩

/-- Witness for C8 (amended) at concrete inputs: with `proxy_protocol` on a
top-level `500 PROXY` line is dropped both in the pump and in the AUTH reply
loop; with it off the line is forwarded. -/
theorem proxy500_drop_witness :
    pumpStep c8St [("500 PROXY not understood\r\n").toList, ("220 hi\r\n").toList]
      = some (none, [("220 hi\r\n").toList])
    ∧ tlsReadLoop ⟨true, false, []⟩ 771 true none
        [("500 PROXY not understood\r\n").toList, ("234 ok\r\n").toList]
      = tlsReadLoop ⟨true, false, []⟩ 771 true none [("234 ok\r\n").toList]
    ∧ pumpStep c8StOff [("502 use 500 PROXY elsewhere\r\n").toList]
      = some (some (("502 use 500 PROXY elsewhere\r\n").toList), []) :=
  ⟨(proxy500_drop c8St (("500 PROXY not understood\r\n").toList)
      [("220 hi\r\n").toList] ⟨true, false, []⟩ 0 none [] ' ').1 rfl (by decide) (by decide),
   (proxy500_drop c8St (("500 PROXY not understood\r\n").toList)
      [("234 ok\r\n").toList] ⟨true, false, []⟩ 771 none
      (("500 PROXY not understood\r\n").toList) ' ').2.1 rfl (by decide) (by decide),
   (proxy500_drop c8StOff (("502 use 500 PROXY elsewhere\r\n").toList) [] ⟨true, false, []⟩
      0 none [] ' ').2.2 rfl rfl rfl rfl (by decide) rfl (by decide)⟩

theorem pasvLine_get3 (m : GoStr) (p : Nat) : (pasvLine m p).get? 3 = some ' ' := rfl

/-- C9.  With the data-channel proxy enabled on a switched connection and the
recorded client mode `PASV`, a reply starting with `"227 "` is rewritten
before being forwarded: the client receives the synthesized line advertising
`masquerade_ip` with dots replaced by commas and the port octets
`listener_port / 256` and `listener_port % 256` — whose recombination
`p1 * 256 + p2` is exactly the proxy's data-listener port. -/
theorem pasv_rewrite (st : PumpState) (buff : GoStr) (rest : List GoStr)
    (hdc : st.cfg.dataChanProxy = true)
    (hsw : st.isSwitched = true)
    (hmode : st.mode = ("PASV").toList)
    (hpre : (("227 ").toList).isPrefixOf buff = true)
    (hno500 : ¬(st.cfg.proxyProtocol = true ∧ containsSub buff proxy500 = true))
    (hpt : st.passThrough = true) :
    pumpStep st (buff :: rest)
      = some (some (pasvLine st.cfg.masqueradeIP st.listenPort), rest)
    ∧ (st.listenPort / 256) * 256 + st.listenPort % 256 = st.listenPort := by
  constructor
  · simp only [pumpStep]
    have hno220 : ¬((getCode buff).headD [] = ("220").toList
        ∧ st.isSwitched = false) := by
      rintro ⟨-, hf⟩
      rw [hsw] at hf
      exact Bool.noConfusion hf
    rw [if_neg hno220, if_neg hno500]
    have hresp : isDataCmdResp buff = true := by
      unfold isDataCmdResp
      rw [hpre]
      rfl
    have hdr : dataRewrite st buff = pasvLine st.cfg.masqueradeIP st.listenPort := by
      unfold dataRewrite
      rw [if_pos ⟨hdc, hsw, hresp⟩, hmode]
      rw [if_neg (by decide), if_pos rfl]
    rw [hdr,
      if_neg (by
        rintro ⟨-, h3⟩
        rw [pasvLine_get3] at h3
        simp at h3),
      if_pos hpt]
  · omega

/-- Witness for C9 at a concrete input: origin's
`"227 Entering Passive Mode (10,0,0,7,195,80)."` is rewritten to advertise
`198,51,100,9` with octets `195,79`, and `195 * 256 + 79 = 49999`. -/
theorem pasv_rewrite_witness :
    pumpStep c9St [("227 Entering Passive Mode (10,0,0,7,195,80).\r\n").toList]
      = some (some (pasvLine (("198.51.100.9").toList) 49999), [])
    ∧ (49999 / 256) * 256 + 49999 % 256 = 49999 :=
  ⟨(pasv_rewrite c9St (("227 Entering Passive Mode (10,0,0,7,195,80).\r\n").toList)
      [] rfl rfl rfl (by decide) (by decide) rfl).1,
   (pasv_rewrite c9St (("227 Entering Passive Mode (10,0,0,7,195,80).\r\n").toList)
      [] rfl rfl rfl (by decide) (by decide) rfl).2⟩

theorem tlsReadLoop_skip (cfg : Config) (tp : Nat) (otls : Option TLSConfigRec)
    (pre rest : List GoStr)
    (hpre : ∀ p ∈ pre, cfg.proxyProtocol = true ∧ containsSub p proxy500 = true
      ∧ ¬((getCode p).headD [] = ("234").toList)) :
    tlsReadLoop cfg tp true otls (pre ++ rest) = tlsReadLoop cfg tp true otls rest := by
  induction pre with
  | nil => rfl
  | cons p ps ih =>
    obtain ⟨hpp, hcont, hne⟩ := hpre p (List.mem_cons_self p ps)
    show (if (true : Bool) = true then _ else _) = _
    rw [if_pos rfl, if_pos hne, if_pos ⟨hpp, hcont⟩]
    exact ih (fun x hx => hpre x (List.mem_cons_of_mem p hx))

/-- C5.  When `sendTLSCommand` replays a recorded `AUTH` command, any
ignorable `500 PROXY` lines (with `proxy_protocol` on) are skipped; then if
the terminal reply has code `234`, the origin socket is wrapped in TLS with
`InsecureSkipVerify = true` and `MinVersion = MaxVersion = tlsProto` (the
recorded `tls_protocol`) and no error is reported; any other terminal reply
makes `sendTLSCommand` return the
`<code> origin server has not support TLS connection` error and leaves the
origin socket unwrapped. -/
theorem sendTLS_auth (cfg : Config) (tp : Nat) (cmd : GoStr)
    (otls : Option TLSConfigRec) (pre : List GoStr) (l : GoStr) (rest : List GoStr)
    (hauth : goToUpper ((getCommand cmd).headD []) = ("AUTH").toList)
    (hpre : ∀ p ∈ pre, cfg.proxyProtocol = true ∧ containsSub p proxy500 = true
      ∧ ¬((getCode p).headD [] = ("234").toList)) :
    ((getCode l).headD [] = ("234").toList →
      sendTLSCommand cfg tp [cmd] none otls (pre ++ l :: rest)
        = Except.ok (none, some ⟨true, tp, tp⟩, rest))
    ∧ (¬((getCode l).headD [] = ("234").toList) →
      ¬(cfg.proxyProtocol = true ∧ containsSub l proxy500 = true) →
      sendTLSCommand cfg tp [cmd] none otls (pre ++ l :: rest)
        = Except.ok (some ((getCode l).headD []
            ++ (" origin server has not support TLS connection").toList), otls, rest)) := by
  have hb : (goToUpper ((getCommand cmd).headD []) == ("AUTH").toList) = true :=
    beq_iff_eq.mpr hauth
  constructor
  · intro h234
    simp only [sendTLSCommand, hb]
    rw [tlsReadLoop_skip cfg tp otls pre (l :: rest) hpre]
    have hloop : tlsReadLoop cfg tp true otls (l :: rest)
        = Except.ok (none, some ⟨true, tp, tp⟩, rest) := by
      show (if (true : Bool) = true then _ else _) = _
      rw [if_pos rfl, if_neg (fun hC => hC h234)]
    rw [hloop]
  · intro hne hno500
    simp only [sendTLSCommand, hb]
    rw [tlsReadLoop_skip cfg tp otls pre (l :: rest) hpre]
    have hloop : tlsReadLoop cfg tp true otls (l :: rest)
        = Except.ok (some ((getCode l).headD []
            ++ (" origin server has not support TLS connection").toList), otls, rest) := by
      show (if (true : Bool) = true then _ else _) = _
      rw [if_pos rfl, if_pos hne, if_neg hno500]
    rw [hloop]

/-- Witness for C5 at concrete inputs (TLS protocol `771`, i.e. TLS 1.2):
after skipping an ignorable `500 PROXY` line, a `234` terminal wraps the
origin in TLS 1.2 both ways with certificate verification disabled; a `502`
terminal yields the origin-no-tls error. -/
theorem sendTLS_auth_witness :
    sendTLSCommand ⟨true, false, []⟩ 771 [("AUTH TLS\r\n").toList] none none
        [("500 PROXY not understood\r\n").toList, ("234 Proceed\r\n").toList]
      = Except.ok (none, some ⟨true, 771, 771⟩, [])
    ∧ sendTLSCommand ⟨true, false, []⟩ 771 [("AUTH TLS\r\n").toList] none none
        [("502 not implemented\r\n").toList]
      = Except.ok (some ((("502").toList)
          ++ (" origin server has not support TLS connection").toList), none, []) :=
  ⟨(sendTLS_auth ⟨true, false, []⟩ 771 (("AUTH TLS\r\n").toList) none
      [("500 PROXY not understood\r\n").toList] (("234 Proceed\r\n").toList) []
      (by decide)
      (by
        intro p hp
        rcases List.mem_singleton.mp hp with rfl
        exact ⟨rfl, by decide, by decide⟩)).1 (by decide),
   (sendTLS_auth ⟨true, false, []⟩ 771 (("AUTH TLS\r\n").toList) none
      [] (("502 not implemented\r\n").toList) []
      (by decide) (by intro p hp; simp at hp)).2 (by decide) (by decide)⟩

/-- C10.  Calling `switchOrigin` with an empty origin address fails
immediately with `user id not found`: the returned state is exactly the input
state (`is_switched` keeps its value — in particular stays false —
`pass_through` is untouched, the origin connection stays open and unwrapped)
and the event trace is empty (no `stopChan`/`stopChanDone` exchange, no dial,
no `waitSwitching` signal). -/
theorem switchOrigin_empty_addr (cfg : Config) (st : PState) (env : SwitchEnv)
    (tp : Nat) (cmds : List GoStr) :
    switchOrigin cfg st env [] tp cmds
      = (Except.error (("user id not found").toList), st, []) := by
  unfold switchOrigin
  rw [if_pos rfl]

/-- C4 (amended).  `is_switched` latches: a call on an already-switched server
leaves the state exactly unchanged with an empty trace, and — **when the
origin address is non-empty** — returns the error `origin already switched`
(with an empty address the earlier guard returns `user id not found` instead,
still performing no switch step); moreover any call with a non-empty address
leaves `is_switched` true in the resulting state, so once set it never returns
to false. -/
theorem switchOrigin_latch (cfg : Config) (st : PState) (env : SwitchEnv)
    (addr : GoStr) (tp : Nat) (cmds : List GoStr) :
    (st.isSwitched = true → (switchOrigin cfg st env addr tp cmds).2.1 = st)
    ∧ (st.isSwitched = true → ¬(addr = []) →
        switchOrigin cfg st env addr tp cmds
          = (Except.error (("origin already switched").toList), st, []))
    ∧ (st.isSwitched = true →
        (switchOrigin cfg st env addr tp cmds).2.1.isSwitched = true)
    ∧ (¬(addr = []) →
        (switchOrigin cfg st env addr tp cmds).2.1.isSwitched = true) := by
  have hsecond : ∀ (_ : st.isSwitched = true) (_ : ¬(addr = [])),
      switchOrigin cfg st env addr tp cmds
        = (Except.error (("origin already switched").toList), st, []) := by
    intro hsw ha
    unfold switchOrigin
    rw [if_neg ha, if_pos hsw]
  refine ⟨?_, hsecond, ?_, ?_⟩
  · intro hsw
    by_cases ha : addr = []
    · rw [show addr = [] from ha, switchOrigin_empty_addr]
    · rw [hsecond hsw ha]
  · intro hsw
    by_cases ha : addr = []
    · rw [show addr = [] from ha, switchOrigin_empty_addr]
      exact hsw
    · rw [hsecond hsw ha]
      exact hsw
  · intro ha
    by_cases hsw : st.isSwitched = true
    · rw [hsecond hsw ha]
      exact hsw
    · unfold switchOrigin
      rw [if_neg ha, if_neg hsw]
      dsimp only
      split
      · rfl
      · split
        · rfl
        · split
          · rfl
          · split <;> rfl

/-- Counterexample to C4 as stated: a later call to `switchOrigin` with an
**empty** origin address returns `user id not found`, not
`origin already switched` — the empty-address guard runs first. -/
theorem switchOrigin_latch_cex :
    c4St.isSwitched = true
    ∧ (switchOrigin ⟨false, false, []⟩ c4St c4Env [] 0 []).1
        = Except.error (("user id not found").toList)
    ∧ ¬((("user id not found").toList) = (("origin already switched").toList)) :=
  ⟨rfl, rfl, by decide⟩

/-- Witness for C4 (amended) at concrete inputs: on an already-switched server
a call with a non-empty address returns `origin already switched` leaving the
state untouched, and `is_switched` remains true. -/
theorem switchOrigin_latch_witness :
    switchOrigin ⟨false, false, []⟩ c4St c4Env (("10.0.0.7:21").toList) 0 []
      = (Except.error (("origin already switched").toList), c4St, [])
    ∧ (switchOrigin ⟨false, false, []⟩ c4St c4Env
         (("10.0.0.7:21").toList) 0 []).2.1.isSwitched = true :=
  ⟨(switchOrigin_latch ⟨false, false, []⟩ c4St c4Env
      (("10.0.0.7:21").toList) 0 []).2.1 rfl (by decide),
   (switchOrigin_latch ⟨false, false, []⟩ c4St c4Env
      (("10.0.0.7:21").toList) 0 []).2.2.1 rfl⟩

/-- C6 (amended).  During a switch (non-empty address, not yet switched, dial
succeeded), exactly one line is read from the new origin before the TCP
tuning and the TLS replay — the trace shows a single `welcomeRead` just
before `tcpTuned`, and the TLS replay consumes only the remainder of the
stream; if that read fails (empty stream) the switch fails with
`cannot connect to new origin server`.  The line's **content is not
inspected**: the result and final state are identical for any two welcome
lines, 2xx or not. -/
theorem switch_welcome_read (cfg : Config) (st : PState) (dOk : Bool)
    (addr : GoStr) (tp : Nat) (cmds : List GoStr)
    (haddr : ¬(addr = [])) (hsw : st.isSwitched = false) (hdial : dOk = true) :
    ((switchOrigin cfg st ⟨dOk, []⟩ addr tp cmds).1
        = Except.error (("cannot connect to new origin server").toList))
    ∧ (∀ l l' ls,
        (((switchOrigin cfg st ⟨dOk, l :: ls⟩ addr tp cmds).1
            = (switchOrigin cfg st ⟨dOk, l' :: ls⟩ addr tp cmds).1)
         ∧ ((switchOrigin cfg st ⟨dOk, l :: ls⟩ addr tp cmds).2.1
            = (switchOrigin cfg st ⟨dOk, l' :: ls⟩ addr tp cmds).2.1))
        ∧ ∃ b, (switchOrigin cfg st ⟨dOk, l :: ls⟩ addr tp cmds).2.2
            = [SwEvent.stopExchanged, SwEvent.dialed]
              ++ (if cfg.proxyProtocol then [SwEvent.proxyHeaderSent] else [])
              ++ [SwEvent.welcomeRead l, SwEvent.tcpTuned,
                  SwEvent.waitSwitchingSent b]) := by
  subst hdial
  constructor
  · unfold switchOrigin
    dsimp only
    simp only [eq_false haddr, hsw, Bool.false_eq_true, Bool.true_eq_false, if_false]
  · intro l l' ls
    unfold switchOrigin
    dsimp only
    simp only [eq_false haddr, hsw, Bool.false_eq_true, Bool.true_eq_false, if_false]
    rcases hTLS : sendTLSCommand cfg tp cmds none none ls with e | ⟨errU, otls2, lines2⟩
    · exact ⟨⟨rfl, rfl⟩, false, by simp⟩
    · rcases errU with _ | err
      · exact ⟨⟨rfl, rfl⟩, true, by simp⟩
      · exact ⟨⟨rfl, rfl⟩, false, by simp⟩

/-- Counterexample to C6 as stated: the single line read from the new origin
is `"530 Access denied.\r\n"` — not a 2xx welcome — yet the switch succeeds
(`Except.ok`); the code checks only the read error, never the reply code. -/
theorem switch_welcome_cex :
    (("530 Access denied.\r\n").toList).headD ' ' = '5'
    ∧ (switchOrigin ⟨false, false, []⟩ c6St
        ⟨true, [("530 Access denied.\r\n").toList]⟩
        (("10.0.0.7:21").toList) 0 []).1 = Except.ok () :=
  ⟨rfl, rfl⟩

/-- Witness for C6 (amended) at concrete inputs: an empty stream fails the
switch with the cannot-connect error; with a one-line stream the result is
the same whether the welcome line is `"530 Access denied.\r\n"` or
`"220 hi\r\n"`, and the trace shows exactly one `welcomeRead` before
`tcpTuned`. -/
theorem switch_welcome_read_witness :
    ((switchOrigin ⟨false, false, []⟩ c6St ⟨true, []⟩
        (("10.0.0.7:21").toList) 0 []).1
      = Except.error (("cannot connect to new origin server").toList))
    ∧ ((switchOrigin ⟨false, false, []⟩ c6St
          ⟨true, [("530 Access denied.\r\n").toList]⟩
          (("10.0.0.7:21").toList) 0 []).1
        = (switchOrigin ⟨false, false, []⟩ c6St ⟨true, [("220 hi\r\n").toList]⟩
            (("10.0.0.7:21").toList) 0 []).1)
    ∧ (∃ b, (switchOrigin ⟨false, false, []⟩ c6St
          ⟨true, [("530 Access denied.\r\n").toList]⟩
          (("10.0.0.7:21").toList) 0 []).2.2
        = [SwEvent.stopExchanged, SwEvent.dialed]
          ++ (if (⟨false, false, []⟩ : Config).proxyProtocol
              then [SwEvent.proxyHeaderSent] else [])
          ++ [SwEvent.welcomeRead (("530 Access denied.\r\n").toList),
              SwEvent.tcpTuned, SwEvent.waitSwitchingSent b]) :=
  ⟨(switch_welcome_read ⟨false, false, []⟩ c6St true
      (("10.0.0.7:21").toList) 0 [] (by decide) rfl rfl).1,
   ((switch_welcome_read ⟨false, false, []⟩ c6St true
      (("10.0.0.7:21").toList) 0 [] (by decide) rfl rfl).2
      (("530 Access denied.\r\n").toList) (("220 hi\r\n").toList) []).1.1,
   ((switch_welcome_read ⟨false, false, []⟩ c6St true
      (("10.0.0.7:21").toList) 0 [] (by decide) rfl rfl).2
      (("530 Access denied.\r\n").toList) (("220 hi\r\n").toList) []).2⟩
